import Mathlib

/-!
Verification development for the snakecast-gui podcast player.

The definitions below are a shallow embedding of the repository's three
source files:
- `src/media_player.py`: the `Episode` dataclass, `PlayerState` enum,
  `PodcastFeedService.fetch_episodes`, `DownloadService.download_episode`
  and the `AudioPlayer` state machine;
- `src/main.py`: the monolithic `PodcastPlayer` class (its own
  `download_episode`, `fetch_episodes`, `play_episode`,
  `toggle_play_pause`, `stop_playback` and the per-frame end-of-track
  check in `run`), together with a small trace model of how
  `play_episode` dispatches background download-and-play tasks.

External effects (network, file system, pygame mixer) are modelled as
explicit inputs and outputs: the chunk stream of a download is a list of
chunk sizes, success or failure of the transfer is a boolean, the mixer
busy flag is an input to the tick, and writes to files or to the mixer
are recorded in the produced state.
-/

/- String literals used by the sources, named so they can be reused. -/

def unknownTitle : String := "Unknown"

def emptyText : String := ""

def defaultPodcastTitle : String := "Podcast"

def fileStem : String := "downloads/episode_"

def mp3Ext : String := ".mp3"

/-- Destination path for an episode file, media_player.py line 116:
`self.downloads_dir / f"episode_{episode.index}.mp3"`. -/
def episodeFileNat (idx : Nat) : String := fileStem ++ toString idx ++ mp3Ext

/-- Destination path built by main.py line 123:
`self.downloads_dir / f"episode_{episode_index}.mp3"` (the raw, possibly
negative, requested index is interpolated). -/
def episodeFileInt (idx : Int) : String := fileStem ++ toString idx ++ mp3Ext

/-- One enclosure dict of a raw feed entry: a required `url` key
(media_player.py line 88, main.py line 122) and an optional `file_size`
key (media_player.py line 91). -/
structure Enclosure where
  url : String
  file_size : Option Nat
deriving DecidableEq

/-- A raw feed entry as produced by `podcastparser.parse`: the optional
keys read by the sources (`title`, `description`, `published`,
`total_time`) and the possibly empty `enclosures` list. -/
structure RawEntry where
  title : Option String
  description : Option String
  enclosures : List Enclosure
  published : Option Int
  total_time : Option Nat
deriving DecidableEq

/-- The `Episode` dataclass, media_player.py lines 20-29. -/
structure Episode where
  title : String
  description : String
  url : String
  published : Option Int
  duration : Option Nat
  file_size : Option Nat
  index : Nat
deriving DecidableEq

/-- The `PlayerState` enum, media_player.py lines 58-63. -/
inductive PlayerState where
  | stopped
  | playing
  | paused
  | downloading
deriving DecidableEq

/-- Loop of `PodcastFeedService.fetch_episodes`, media_player.py lines
82-94: `for i, ep in enumerate(parsed['episodes'][:limit])` keeps the
entries whose `enclosures` list is non-empty (Python truthiness of
`ep.get('enclosures')`) and builds an `Episode` from the entry's fields
with `index=i`, the enumeration counter over the pre-filter sequence.
The counter `i` is the first argument. -/
def fetchLoop : Nat → List RawEntry → List Episode
  | _, [] => []
  | i, e :: rest =>
    match e.enclosures with
    | [] => fetchLoop (i + 1) rest
    | enc :: _ =>
      { title := e.title.getD unknownTitle
        description := e.description.getD emptyText
        url := enc.url
        published := e.published
        duration := e.total_time
        file_size := enc.file_size
        index := i } :: fetchLoop (i + 1) rest

/-- `PodcastFeedService.fetch_episodes`, media_player.py lines 76-95:
the parsed entry list is truncated to `limit` before enumeration
(`parsed['episodes'][:limit]`). The network fetch and parse are
modelled by passing the parsed entry list directly. -/
def PodcastFeedService.fetchEpisodes (entries : List RawEntry) (limit : Nat) : List Episode :=
  fetchLoop 0 (entries.take limit)

/-- The chunk loop shared verbatim by `DownloadService.download_episode`
(media_player.py lines 126-133) and `PodcastPlayer.download_episode`
(main.py lines 71-75): it threads the `downloaded` byte counter and the
stored `progress` value through the received chunks.  `total` is
`int(response.headers.get('content-length', 0))`, so `total = 0` encodes
an unknown size and the Python guard `if total_size:` is `total ≠ 0`.
After each chunk the code stores `(downloaded / total_size) * 100`,
with no clamping.  The result is (final byte counter, final progress
value, list of every value assigned to `progress` inside the loop, in
order). -/
def dlLoop (total : Nat) : List Nat → Nat → ℚ → Nat × ℚ × List ℚ
  | [], downloaded, progress => (downloaded, progress, [])
  | n :: rest, downloaded, progress =>
    if total = 0 then
      dlLoop total rest (downloaded + n) progress
    else
      let p : ℚ := ((downloaded + n : Nat) : ℚ) / (total : ℚ) * 100
      let r := dlLoop total rest (downloaded + n) p
      (r.1, r.2.1, p :: r.2.2)

/-- Running byte totals after each chunk, starting from `d` bytes:
the value of `downloaded` after each iteration of the chunk loop. -/
def runningTotals (d : Nat) : List Nat → List Nat
  | [] => []
  | n :: rest => (d + n) :: runningTotals (d + n) rest

/-- Observable outcome of one download call.  `received` below is the
list of chunk sizes actually delivered by `iter_content` before either
end-of-stream (`ok = true`) or a network/IO exception (`ok = false`,
the error strikes after the listed chunks were written).  `writes` is
the full sequence of values assigned to the progress field, including
the reset at call entry and, where the code performs one, the reset at
call exit.  `fileDeleted` records whether any code path removed the
destination file, and `errorCbInvoked` whether any error callback was
invoked (neither source file has either). -/
structure ServiceOutcome where
  is_downloading : Bool
  progress : ℚ
  writes : List ℚ
  fileBytes : Nat
  fileDeleted : Bool
  errorCbInvoked : Bool
  returned : Except Unit String

/-- `DownloadService.download_episode`, media_player.py lines 110-139:
under the lock it sets `is_downloading = True` and `progress = 0`
(lines 112-114), opens the destination file (line 125), runs the chunk
loop (lines 126-133), and in a `finally` block sets
`is_downloading = False` and `progress = 0` on success and failure
alike (lines 136-139).  On success it returns the file path (line 135);
on a mid-stream error the exception propagates to the caller.  No code
path deletes the destination file or invokes an error callback. -/
def DownloadService.downloadEpisode (total : Nat) (received : List Nat) (ok : Bool)
    (idx : Nat) : ServiceOutcome :=
  let r := dlLoop total received 0 0
  { is_downloading := false
    progress := 0
    writes := 0 :: r.2.2 ++ [0]
    fileBytes := r.1
    fileDeleted := false
    errorCbInvoked := false
    returned := if ok then Except.ok (episodeFileNat idx) else Except.error () }

/-- `PodcastPlayer.download_episode`, main.py lines 59-78: sets
`is_downloading = True` and `download_progress = 0` (lines 61-62), runs
the same chunk loop (lines 70-75), and on success sets
`is_downloading = False` (line 77) and returns the filename — the
progress value is left at whatever the last loop iteration stored.
There is no `try`/`finally`: on a mid-stream error the exception
propagates with `is_downloading` still `True` and the progress value
untouched.  No code path deletes the destination file or invokes an
error callback. -/
def PodcastPlayer.downloadEpisode (total : Nat) (received : List Nat) (ok : Bool)
    (idx : Nat) : ServiceOutcome :=
  let r := dlLoop total received 0 0
  { is_downloading := !ok
    progress := r.2.1
    writes := 0 :: r.2.2
    fileBytes := r.1
    fileDeleted := false
    errorCbInvoked := false
    returned := if ok then Except.ok (episodeFileNat idx) else Except.error () }

/-! ### AudioPlayer (media_player.py lines 141-182) -/

/-- Mutable state of `AudioPlayer`: `state`, `current_episode`,
`current_file` (lines 146-148). -/
structure APState where
  state : PlayerState
  current_episode : Option Episode
  current_file : Option String
deriving DecidableEq

/-- `AudioPlayer.__init__`, lines 144-148. -/
def apInit : APState :=
  { state := PlayerState.stopped, current_episode := none, current_file := none }

/-- `AudioPlayer.load_and_play`, lines 150-156: loads and starts the
mixer, then sets `current_file`, `current_episode` and
`state = PLAYING`. -/
def AudioPlayer.loadAndPlay (s : APState) (path : String) (ep : Episode) : APState :=
  { s with current_file := some path, current_episode := some ep,
           state := PlayerState.playing }

/-- `AudioPlayer.toggle_play_pause`, lines 158-165: PLAYING becomes
PAUSED, PAUSED becomes PLAYING, anything else is untouched. -/
def AudioPlayer.togglePlayPause (s : APState) : APState :=
  if s.state = PlayerState.playing then { s with state := PlayerState.paused }
  else if s.state = PlayerState.paused then { s with state := PlayerState.playing }
  else s

/-- `AudioPlayer.stop`, lines 167-172: stops the mixer, sets
`state = STOPPED` and clears `current_episode` and `current_file`,
independently of the prior state. -/
def AudioPlayer.stop (_ : APState) : APState :=
  { state := PlayerState.stopped, current_episode := none, current_file := none }

/-- The spec invariant for the playback layer: `current_episode` is
non-null iff the state is Playing or Paused. -/
def apInv (s : APState) : Prop :=
  s.current_episode.isSome = true ↔
    (s.state = PlayerState.playing ∨ s.state = PlayerState.paused)

/-! ### PodcastPlayer state (main.py) -/

/-- The mutable fields of `PodcastPlayer` read or written by the
operations under study (main.py lines 25-31 and 107): the raw episode
dicts from the feed, the cached feed title, the currently selected
episode dict, the downloaded file path, and the playback/download
flags. -/
structure PPState where
  episodes : List RawEntry
  podcast_title : Option String
  current_episode : Option RawEntry
  audio_file : Option String
  is_playing : Bool
  is_paused : Bool
  is_downloading : Bool
  download_progress : ℚ
deriving DecidableEq

/-- `PodcastPlayer.__init__`, main.py lines 25-31 (before the first
successful fetch the `podcast_title` attribute does not exist, modelled
as `none`). -/
def ppInit : PPState :=
  { episodes := [], podcast_title := none, current_episode := none,
    audio_file := none, is_playing := false, is_paused := false,
    is_downloading := false, download_progress := 0 }

/-- A successfully parsed feed: the entry list and the optional title,
as consumed by main.py lines 105-107. -/
structure ParsedFeed where
  episodes : List RawEntry
  title : Option String
deriving DecidableEq

/-- `PodcastPlayer.fetch_episodes`, main.py lines 101-109: the parse of
the remote feed either yields a `ParsedFeed` or raises; the argument
carries that outcome.  On success the episode list is wholesale
replaced by the first 20 entries and the title cached; on any
exception the handler only prints a message and every field is left
untouched. -/
def PodcastPlayer.fetchEpisodes (s : PPState) (result : Except String ParsedFeed) : PPState :=
  match result with
  | Except.ok parsed =>
    { s with episodes := parsed.episodes.take 20,
             podcast_title := some (parsed.title.getD defaultPodcastTitle) }
  | Except.error _ => s

/-- Python list indexing `l[i]` for a possibly negative `i`:
a negative index counts from the end, and an index out of range on
either side raises `IndexError`, modelled as `none`. -/
def pyIndex {α : Type} (l : List α) (i : Int) : Option α :=
  if 0 ≤ i then l.get? i.toNat
  else if (-i).toNat ≤ l.length then l.get? (l.length - (-i).toNat)
  else none

/-- A background download request carried by the thread spawned at
main.py lines 126-135: the enclosure url and the destination
filename. -/
structure DownloadReq where
  url : String
  filename : String
deriving DecidableEq

/-- The synchronous part of `PodcastPlayer.play_episode`, main.py lines
111-135.  The guard `if episode_index >= len(self.episodes): return`
(line 113) returns without touching any field and without spawning a
thread; it is the only bound check, so a negative index passes it and
is resolved by Python's negative indexing at line 116 (an `IndexError`
propagates, modelled as `none`).  Otherwise `current_episode` is set
(line 117) before the enclosure check (line 119); if an enclosure
exists, a background download-and-play thread is started, modelled by
returning the request. -/
def PodcastPlayer.playEpisode (s : PPState) (idx : Int) :
    Option (PPState × Option DownloadReq) :=
  if (s.episodes.length : Int) ≤ idx then some (s, none)
  else
    match pyIndex s.episodes idx with
    | none => none
    | some episode =>
      match episode.enclosures with
      | [] => some ({ s with current_episode := some episode }, none)
      | enc :: _ =>
        some ({ s with current_episode := some episode },
          some { url := enc.url, filename := episodeFileInt idx })

/-- `PodcastPlayer.toggle_play_pause`, main.py lines 137-145. -/
def PodcastPlayer.togglePlayPause (s : PPState) : PPState :=
  if s.is_playing then { s with is_paused := !s.is_paused } else s

/-- `PodcastPlayer.stop_playback`, main.py lines 147-153: stops the
mixer, clears both flags and `current_episode`; `audio_file` is not
assigned. -/
def PodcastPlayer.stopPlayback (s : PPState) : PPState :=
  { s with is_playing := false, is_paused := false, current_episode := none }

/-- The per-frame end-of-track check, main.py lines 457-458:
`if self.is_playing and not pygame.mixer.music.get_busy() and not
self.is_paused: self.is_playing = False`.  `busy` is the value reported
by the mixer this frame.  No other field is assigned. -/
def PodcastPlayer.tick (s : PPState) (busy : Bool) : PPState :=
  if s.is_playing && !busy && !s.is_paused then { s with is_playing := false } else s

/-- Playback state of `PodcastPlayer` in the vocabulary of the spec's
three-way state machine: Playing iff `is_playing` and not `is_paused`,
Paused iff `is_playing` and `is_paused`, Stopped otherwise. -/
def ppPlaybackState (s : PPState) : PlayerState :=
  if s.is_playing then
    (if s.is_paused then PlayerState.paused else PlayerState.playing)
  else PlayerState.stopped

/-- The spec invariant, read on `PodcastPlayer`: `current_episode` is
non-null iff the playback state is Playing or Paused. -/
def ppInv (s : PPState) : Prop :=
  s.current_episode.isSome = true ↔
    (ppPlaybackState s = PlayerState.playing ∨ ppPlaybackState s = PlayerState.paused)

/-! ### Orchestration of play requests (main.py lines 111-135)

Each `play_episode` call spawns a `download_and_play` task (lines
126-135).  When a task's download completes, the closure
unconditionally loads its file into the mixer, starts playback and sets
the flags — there is no check of any "latest requested episode" token
anywhere in the file.  The trace model below records the issued
requests and what each completion commits to the mixer. -/

/-- Events of the orchestration: a user issues `play_episode` for an
episode, or the background task of the `k`-th issued request (counting
from 0) finishes its download and runs lines 128-131. -/
inductive PlayEvent where
  | issue (episode : Nat)
  | complete (task : Nat)
deriving DecidableEq

/-- Orchestration state: the episodes of the issued requests in order,
what the mixer currently has loaded, and the log of every episode
committed to the mixer by a completion (each `loadAndPlay`). -/
structure Orchestration where
  issued : List Nat
  mixerLoaded : Option Nat
  commits : List Nat
deriving DecidableEq

def orchInit : Orchestration := { issued := [], mixerLoaded := none, commits := [] }

/-- One orchestration step.  An `issue` records the request (and starts
its download).  A `complete k` of a valid task runs `download_and_play`
of that task: it loads that task's file into the mixer and plays it,
with no supersede check (main.py lines 126-131). -/
def playStep (s : Orchestration) : PlayEvent → Orchestration
  | PlayEvent.issue e => { s with issued := s.issued ++ [e] }
  | PlayEvent.complete k =>
    match s.issued.get? k with
    | some e => { s with mixerLoaded := some e, commits := s.commits ++ [e] }
    | none => s

def playRun (t : List PlayEvent) : Orchestration := t.foldl playStep orchInit

def isIssue : PlayEvent → Bool
  | PlayEvent.issue _ => true
  | PlayEvent.complete _ => false

def issueCount (t : List PlayEvent) : Nat := (t.filter isIssue).length

/-- Hypothesis of the supersede claim, as a decidable check on a trace:
every request after the first is issued strictly before the completion
of the previous request fires.  Concretely: whenever `complete n`
occurs at position `p` and request `n + 1` exists in the trace at all,
then request `n + 1` was already issued before position `p`. -/
def promptlyIssued (t : List PlayEvent) : Bool :=
  (List.range t.length).all fun p =>
    match t.get? p with
    | some (PlayEvent.complete n) =>
      !(decide (n + 2 ≤ issueCount t)) || decide (n + 2 ≤ issueCount (t.take p))
    | _ => true

/-! ### Concrete states and traces used by counterexamples and witnesses -/

def urlA : String := "a.mp3"

def titleNoAudio : String := "No audio"

def titleWithAudio : String := "With audio"

/-- A feed entry with no enclosure (dropped by the fetch filter). -/
def entryNoEnc : RawEntry :=
  { title := some titleNoAudio, description := none, enclosures := [],
    published := none, total_time := none }

/-- A feed entry with one enclosure (kept by the fetch filter). -/
def entryEnc : RawEntry :=
  { title := some titleWithAudio, description := none,
    enclosures := [{ url := urlA, file_size := none }],
    published := none, total_time := none }

/-- The episode `fetch_episodes` builds from `entryEnc` when it is the
second entry of the feed: its `index` field is 1, the position of the
entry in the pre-filter sequence. -/
def cexEp : Episode :=
  { title := titleWithAudio, description := emptyText, url := urlA,
    published := none, duration := none, file_size := none, index := 1 }

/-- An episode used to instantiate the AudioPlayer theorems. -/
def ep0 : Episode :=
  { title := titleWithAudio, description := emptyText, url := urlA,
    published := none, duration := none, file_size := none, index := 0 }

def file0 : String := "downloads/episode_0.mp3"

/-- A `PodcastPlayer` state in the middle of playback of `entryEnc`. -/
def sPlay : PPState :=
  { episodes := [entryEnc], podcast_title := some defaultPodcastTitle,
    current_episode := some entryEnc, audio_file := some file0,
    is_playing := true, is_paused := false, is_downloading := false,
    download_progress := 0 }

/-- The state after a successful refresh of a one-entry feed from the
initial state. -/
def ppAfterFetch : PPState :=
  PodcastPlayer.fetchEpisodes ppInit
    (Except.ok { episodes := [entryEnc], title := some defaultPodcastTitle })

/-- The state right after `play_episode(0)` from `ppAfterFetch`
(synchronous part: the download has not completed yet). -/
def ppAfterPlay : PPState :=
  ((PodcastPlayer.playEpisode ppAfterFetch 0).map Prod.fst).getD ppInit

/-- Two play requests issued back to back before either download
completes; the second request's download finishes first, the first
request's download finishes last. -/
def cexTrace : List PlayEvent :=
  [PlayEvent.issue 10, PlayEvent.issue 20, PlayEvent.complete 1, PlayEvent.complete 0]

/-! ### Helper lemmas -/

/-- Every episode produced by the fetch loop started at counter `i` has
an index at least `i`, is built from the entry found at offset
`ep.index - i` of the remaining entry list, and that entry has a
non-empty enclosure list. -/
theorem fetchLoop_mem (l : List RawEntry) : ∀ (i : Nat) (ep : Episode),
    ep ∈ fetchLoop i l →
    i ≤ ep.index ∧ ∃ e enc, l.get? (ep.index - i) = some e ∧
      e.enclosures.head? = some enc ∧ ep.url = enc.url ∧
      ep.title = e.title.getD unknownTitle := by
  induction l with
  | nil => intro i ep h; simp [fetchLoop] at h
  | cons e rest ih =>
    intro i ep h
    cases henc : e.enclosures with
    | nil =>
      rw [fetchLoop, henc] at h
      obtain ⟨hle, e1, enc, hget, hhead, hurl, htitle⟩ := ih (i + 1) ep h
      refine ⟨by omega, e1, enc, ?_, hhead, hurl, htitle⟩
      have hidx : ep.index - i = (ep.index - (i + 1)) + 1 := by omega
      rw [hidx, List.get?_cons_succ]
      exact hget
    | cons enc rest2 =>
      rw [fetchLoop, henc] at h
      rcases List.mem_cons.mp h with heq | h2
      · subst heq
        refine ⟨Nat.le_refl _, e, enc, ?_, ?_, rfl, rfl⟩
        · simp
        · rw [henc]; rfl
      · obtain ⟨hle, e1, enc1, hget, hhead, hurl, htitle⟩ := ih (i + 1) ep h2
        refine ⟨by omega, e1, enc1, ?_, hhead, hurl, htitle⟩
        have hidx : ep.index - i = (ep.index - (i + 1)) + 1 := by omega
        rw [hidx, List.get?_cons_succ]
        exact hget

/-- Indices strictly increase along the fetch loop's output. -/
theorem fetchLoop_pairwise (l : List RawEntry) : ∀ i : Nat,
    (fetchLoop i l).Pairwise (fun a b => a.index < b.index) := by
  induction l with
  | nil => intro i; simp [fetchLoop]
  | cons e rest ih =>
    intro i
    cases henc : e.enclosures with
    | nil => rw [fetchLoop, henc]; exact ih (i + 1)
    | cons enc rest2 =>
      rw [fetchLoop, henc]
      refine List.pairwise_cons.mpr ⟨?_, ih (i + 1)⟩
      intro b hb
      have := (fetchLoop_mem rest (i + 1) b hb).1
      simpa using by omega

/-- The values stored into the progress field by the chunk loop are the
running byte totals scaled by `100 / total`, and nothing is stored when
the total size is unknown. -/
theorem dlLoop_writes (total : Nat) (received : List Nat) : ∀ (d : Nat) (p : ℚ),
    (dlLoop total received d p).2.2 =
      if total = 0 then []
      else (runningTotals d received).map (fun b => ((b : Nat) : ℚ) / (total : ℚ) * 100) := by
  induction received with
  | nil => intro d p; simp [dlLoop, runningTotals]
  | cons n rest ih =>
    intro d p
    by_cases h : total = 0
    · subst h; simp [dlLoop, ih]
    · simp [dlLoop, h, runningTotals, ih]

/-- The byte counter after the chunk loop is the sum of the received
chunk sizes. -/
theorem dlLoop_bytes (total : Nat) (received : List Nat) : ∀ (d : Nat) (p : ℚ),
    (dlLoop total received d p).1 = d + received.sum := by
  induction received with
  | nil => intro d p; simp [dlLoop]
  | cons n rest ih =>
    intro d p
    by_cases h : total = 0
    · subst h; simp [dlLoop, ih]; omega
    · simp [dlLoop, h, ih]; omega

/-- The `k`-th running total is the sum of the first `k + 1` chunks. -/
theorem runningTotals_get (received : List Nat) : ∀ (d k : Nat), k < received.length →
    (runningTotals d received).get? k = some (d + (received.take (k + 1)).sum) := by
  induction received with
  | nil => intro d k h; simp at h
  | cons n rest ih =>
    intro d k h
    cases k with
    | zero => simp [runningTotals]
    | succ k =>
      rw [runningTotals, List.get?_cons_succ, ih (d + n) k (by simpa using h)]
      simp [List.take_succ_cons]
      omega

theorem runningTotals_length (received : List Nat) : ∀ d : Nat,
    (runningTotals d received).length = received.length := by
  induction received with
  | nil => intro d; simp [runningTotals]
  | cons n rest ih => intro d; simp [runningTotals, ih]

/-- Monotonicity of the chunk loop's stored progress values: prefixing
the write list with the progress ratio of the starting byte count gives
a non-decreasing sequence. -/
theorem dlLoop_chain (total : Nat) (received : List Nat) : ∀ (d : Nat) (p : ℚ),
    List.Chain' (· ≤ ·)
      ((((d : Nat) : ℚ) / (total : ℚ) * 100) :: (dlLoop total received d p).2.2) := by
  induction received with
  | nil => intro d p; simp [dlLoop]
  | cons n rest ih =>
    intro d p
    by_cases h : total = 0
    · rw [show (dlLoop total (n :: rest) d p).2.2 = [] from by
        rw [dlLoop_writes total (n :: rest) d p, if_pos h]]
      simp
    · have hstep : (dlLoop total (n :: rest) d p).2.2 =
          (((d + n : Nat) : ℚ) / (total : ℚ) * 100) ::
            (dlLoop total rest (d + n) (((d + n : Nat) : ℚ) / (total : ℚ) * 100)).2.2 := by
        rw [dlLoop, if_neg h]
      rw [hstep]
      refine List.chain'_cons.mpr ⟨?_, ih (d + n) _⟩
      have ht : (0 : ℚ) < (total : ℚ) := by
        exact_mod_cast Nat.pos_of_ne_zero h
      have hle : ((d : Nat) : ℚ) / (total : ℚ) ≤ ((d + n : Nat) : ℚ) / (total : ℚ) :=
        (div_le_div_iff_of_pos_right ht).mpr (by exact_mod_cast Nat.le_add_right d n)
      exact mul_le_mul_of_nonneg_right hle (by norm_num)

/-! ### C1 — supersede property of play requests -/

/-- C1 counterexample: the trace issues episode 10 then episode 20
strictly before the first request's completion fires (the decidable
hypothesis `promptlyIssued` holds), yet the completion of the
superseded first request still commits episode 10 to the mixer, and the
mixer ends up holding episode 10 although the last issued request was
episode 20.  This refutes the claim that only the last issued call's
result is ever committed and that superseded completions leave playback
state unchanged. -/
theorem supersede_violated_cex :
    promptlyIssued cexTrace = true ∧
    (playRun cexTrace).issued.getLast? = some 20 ∧
    (playRun cexTrace).mixerLoaded = some 10 ∧
    (playRun cexTrace).commits = [20, 10] := by decide

/-- C1 (amended): `play_episode` installs no supersede check: the
completion of any issued request — superseded or not — unconditionally
commits its own episode to the mixer and appends it to the commit log,
so the mixer ends up holding whichever request completed last, not the
last request issued. -/
theorem completion_always_commits (s : Orchestration) (k e : Nat)
    (h : s.issued.get? k = some e) :
    playStep s (PlayEvent.complete k) =
      { s with mixerLoaded := some e, commits := s.commits ++ [e] } := by
  simp only [playStep]
  rw [h]

/-- Witness for `completion_always_commits` at a concrete state. -/
theorem completion_commits_concrete :
    playStep { issued := [7], mixerLoaded := none, commits := [] }
        (PlayEvent.complete 0) =
      { issued := [7], mixerLoaded := some 7, commits := [7] } :=
  completion_always_commits
    { issued := [7], mixerLoaded := none, commits := [] } 0 7 rfl

/-! ### C2 — indices assigned by fetch_episodes -/

/-- C2 counterexample: a feed whose first entry has no enclosure and
whose second entry has one.  The filtered result has a single episode,
and that episode — at position 0 of the result — carries index 1, not
0: the index is the entry's position in the pre-filter sequence. -/
theorem fetch_index_mismatch_cex :
    (PodcastFeedService.fetchEpisodes [entryNoEnc, entryEnc] 20).length = 1 ∧
    ((PodcastFeedService.fetchEpisodes [entryNoEnc, entryEnc] 20).get? 0).map
        Episode.index = some 1 ∧
    (some 1 : Option Nat) ≠ some 0 := by decide

/-- C2 (amended): `fetch_episodes` drops entries lacking an audio
enclosure, but assigns each surviving record the zero-based position of
its entry in the original (pre-filter) truncated entry sequence: each
returned episode's index points back at the raw entry it was built
from, and indices strictly increase along the result without having to
equal result positions. -/
theorem fetch_index_prefilter_position (entries : List RawEntry) (limit : Nat) :
    (∀ ep ∈ PodcastFeedService.fetchEpisodes entries limit,
      ∃ e enc, (entries.take limit).get? ep.index = some e ∧
        e.enclosures.head? = some enc ∧ ep.url = enc.url ∧
        ep.title = e.title.getD unknownTitle) ∧
    (PodcastFeedService.fetchEpisodes entries limit).Pairwise
      (fun a b => a.index < b.index) := by
  constructor
  · intro ep h
    obtain ⟨hle, e, enc, hget, hhead, hurl, htitle⟩ :=
      fetchLoop_mem (entries.take limit) 0 ep h
    exact ⟨e, enc, by simpa using hget, hhead, hurl, htitle⟩
  · exact fetchLoop_pairwise (entries.take limit) 0

/-- Witness for `fetch_index_prefilter_position` on the two-entry
feed. -/
theorem fetch_index_prefilter_position_inst :
    ∃ e enc, ([entryNoEnc, entryEnc].take 20).get? cexEp.index = some e ∧
      e.enclosures.head? = some enc ∧ cexEp.url = enc.url ∧
      cexEp.title = e.title.getD unknownTitle :=
  (fetch_index_prefilter_position [entryNoEnc, entryEnc] 20).1 cexEp (by decide)

/-! ### C3 — behaviour on a mid-stream download error -/

/-- C3 counterexample: a download of a 10-byte resource fails after one
4-byte chunk was written.  The destination file is not deleted (4 bytes
remain on disk) and no error callback is invoked — there is none in the
code — contradicting the claimed delete-partial-file-and-report
behaviour; moreover in `PodcastPlayer.download_episode` the downloading
flag is left `True`. -/
theorem download_error_no_cleanup_cex :
    (DownloadService.downloadEpisode 10 [4] false 0).fileDeleted = false ∧
    (DownloadService.downloadEpisode 10 [4] false 0).fileBytes = 4 ∧
    (DownloadService.downloadEpisode 10 [4] false 0).errorCbInvoked = false ∧
    (PodcastPlayer.downloadEpisode 10 [4] false 0).is_downloading = true := by decide

/-- C3 (amended): on a mid-stream error,
`DownloadService.download_episode` clears the downloading flag and
resets progress (its `finally` block) and propagates the exception
instead of returning a path, but it leaves the partially written file
on disk (holding exactly the bytes received before the error) and
invokes no error callback; `PodcastPlayer.download_episode` moreover
leaves its downloading flag set. -/
theorem download_error_behavior (total : Nat) (received : List Nat) (idx : Nat) :
    (DownloadService.downloadEpisode total received false idx).is_downloading = false ∧
    (DownloadService.downloadEpisode total received false idx).progress = 0 ∧
    (DownloadService.downloadEpisode total received false idx).returned = Except.error () ∧
    (DownloadService.downloadEpisode total received false idx).fileDeleted = false ∧
    (DownloadService.downloadEpisode total received false idx).fileBytes = received.sum ∧
    (DownloadService.downloadEpisode total received false idx).errorCbInvoked = false ∧
    (PodcastPlayer.downloadEpisode total received false idx).is_downloading = true ∧
    (PodcastPlayer.downloadEpisode total received false idx).returned = Except.error () := by
  refine ⟨rfl, rfl, rfl, rfl, ?_, rfl, rfl, rfl⟩
  show (dlLoop total received 0 0).1 = received.sum
  rw [dlLoop_bytes total received 0 0]
  omega

/-! ### C4 — progress formula after each chunk -/

/-- C4 counterexample: a resource whose content-length header claims 1
byte but whose stream delivers a single 2-byte chunk.  The stored
progress after that chunk is 200, which exceeds 100 and differs from
the claimed `min(100, bytes/total*100) = 100`: the code applies no
clamping. -/
theorem progress_unclamped_cex :
    (DownloadService.downloadEpisode 1 [2] true 0).writes.get? 1 = some 200 ∧
    ¬ ((200 : ℚ) ≤ 100) ∧
    min 100 (((2 : Nat) : ℚ) / ((1 : Nat) : ℚ) * 100) = 100 := by
  refine ⟨?_, by norm_num, ?_⟩
  · show some (((0 + 2 : Nat) : ℚ) / ((1 : Nat) : ℚ) * 100) = some 200
    norm_num
  · have h2 : ((2 : Nat) : ℚ) / ((1 : Nat) : ℚ) * 100 = 200 := by norm_num
    rw [h2]
    norm_num [min_def]

/-- C4 (amended): when the total size is known (non-zero
content-length), the progress stored after the `k`-th received chunk is
the unclamped ratio `bytes_received / total_size * 100` — it exceeds
100 exactly when the stream delivers more bytes than the header
announced; when the total size is unknown, the progress field is never
written inside the loop, so it stays 0 for the whole transfer (the only
writes are the resets at job start and job end). -/
theorem progress_update_rule (total : Nat) (received : List Nat) (ok : Bool) (idx : Nat) :
    (total = 0 → (DownloadService.downloadEpisode total received ok idx).writes = [0, 0]) ∧
    (total ≠ 0 → ∀ k, k < received.length →
      (DownloadService.downloadEpisode total received ok idx).writes.get? (k + 1) =
        some ((((received.take (k + 1)).sum : Nat) : ℚ) / (total : ℚ) * 100)) := by
  constructor
  · intro h
    show (0 : ℚ) :: (dlLoop total received 0 0).2.2 ++ [0] = [0, 0]
    rw [dlLoop_writes total received 0 0, if_pos h]
    rfl
  · intro h k hk
    show ((0 : ℚ) :: ((dlLoop total received 0 0).2.2 ++ [0])).get? (k + 1) = _
    rw [List.get?_cons_succ, dlLoop_writes total received 0 0, if_neg h,
      List.get?_append (by rw [List.length_map, runningTotals_length]; exact hk),
      List.get?_map, runningTotals_get received 0 k hk]
    simp

/-- Witness for `progress_update_rule`: known total size 2, chunks of 1
and 2 bytes; after the second chunk the stored progress is
`3 / 2 * 100`. -/
theorem progress_update_rule_inst :
    (DownloadService.downloadEpisode 2 [1, 2] true 0).writes.get? 2 =
      some (((([1, 2].take 2).sum : Nat) : ℚ) / ((2 : Nat) : ℚ) * 100) :=
  (progress_update_rule 2 [1, 2] true 0).2 (by decide) 1 (by decide)

/-! ### C5 — monotonicity and resets of the progress sequence -/

/-- C5 counterexample: in `PodcastPlayer.download_episode` (main.py) a
successful 1-byte download of a 1-byte resource stores the progress
sequence `[0, 100]` and ends with the progress field at 100, not 0 —
there is no reset at job end; and on a mid-stream failure neither the
progress value nor the downloading flag is reset.  This refutes the
claimed reset to 0 at job end on both success and failure. -/
theorem progress_no_end_reset_cex :
    (PodcastPlayer.downloadEpisode 1 [1] true 0).writes = [0, 100] ∧
    (PodcastPlayer.downloadEpisode 1 [1] true 0).progress = 100 ∧
    (PodcastPlayer.downloadEpisode 1 [1] false 0).progress = 100 ∧
    (PodcastPlayer.downloadEpisode 1 [1] false 0).is_downloading = true ∧
    (100 : ℚ) ≠ 0 := by
  refine ⟨?_, ?_, ?_, rfl, by norm_num⟩
  · show ((0 : ℚ) :: [((0 + 1 : Nat) : ℚ) / ((1 : Nat) : ℚ) * 100]) = [0, 100]
    norm_num
  · show ((0 + 1 : Nat) : ℚ) / ((1 : Nat) : ℚ) * 100 = 100
    norm_num
  · show ((0 + 1 : Nat) : ℚ) / ((1 : Nat) : ℚ) * 100 = 100
    norm_num

/-- C5 (amended): within a single job the sequence of stored progress
values is monotonically non-decreasing.  `DownloadService` resets the
value to 0 at job start and — through its `finally` block — at job end
on success and failure alike, so its write sequence starts and ends
with 0 and is non-decreasing up to that final reset.
`PodcastPlayer.download_episode` resets only at job start: its write
sequence starts with 0 and is non-decreasing throughout, with no reset
at job end. -/
theorem progress_trace_resets (total : Nat) (received : List Nat) (ok : Bool) (idx : Nat) :
    (DownloadService.downloadEpisode total received ok idx).writes.head? = some 0 ∧
    (DownloadService.downloadEpisode total received ok idx).writes.getLast? = some 0 ∧
    List.Chain' (· ≤ ·)
      (DownloadService.downloadEpisode total received ok idx).writes.dropLast ∧
    (DownloadService.downloadEpisode total received ok idx).progress = 0 ∧
    (DownloadService.downloadEpisode total received ok idx).is_downloading = false ∧
    (PodcastPlayer.downloadEpisode total received ok idx).writes.head? = some 0 ∧
    List.Chain' (· ≤ ·) (PodcastPlayer.downloadEpisode total received ok idx).writes := by
  have hchain : List.Chain' (· ≤ ·) ((0 : ℚ) :: (dlLoop total received 0 0).2.2) := by
    have h0 : ((0 : Nat) : ℚ) / (total : ℚ) * 100 = 0 := by simp
    have hc := dlLoop_chain total received 0 0
    rwa [h0] at hc
  refine ⟨rfl, ?_, ?_, rfl, rfl, rfl, hchain⟩
  · show (((0 : ℚ) :: (dlLoop total received 0 0).2.2) ++ [0]).getLast? = some (0 : ℚ)
    exact List.getLast?_concat _
  · show List.Chain' (· ≤ ·)
      ((((0 : ℚ) :: (dlLoop total received 0 0).2.2) ++ [0]).dropLast)
    rw [List.dropLast_concat]
    exact hchain

/-! ### C6 — current_episode iff Playing or Paused -/

/-- C6 counterexample: from the (reachable) freshly refreshed state the
invariant holds, but the synchronous part of `play_episode(0)` sets
`current_episode` while the playback state is still Stopped (the
download has not completed), breaking the iff; and from a playing state
satisfying the invariant, the per-frame end-of-track check with a
not-busy mixer clears `is_playing` but not `current_episode`, breaking
the iff as well. -/
theorem episode_invariant_broken_cex :
    ppInv ppAfterFetch ∧
    (PodcastPlayer.playEpisode ppAfterFetch 0).isSome = true ∧
    ¬ ppInv ppAfterPlay ∧
    ppInv sPlay ∧
    ¬ ppInv (PodcastPlayer.tick sPlay false) := by
  unfold ppInv ppPlaybackState
  decide

/-- C6 (amended): the invariant "current_episode is non-null iff the
state is Playing or Paused" holds of `AudioPlayer` (media_player.py):
it holds initially and is preserved by `load_and_play`,
`toggle_play_pause` and `stop`.  It does not hold of `PodcastPlayer`
(main.py), whose `play_episode` sets `current_episode` before playback
starts and whose end-of-track check clears `is_playing` without
clearing `current_episode`. -/
theorem audio_player_episode_invariant (s : APState) (p : String) (ep : Episode)
    (h : apInv s) :
    apInv apInit ∧ apInv (AudioPlayer.loadAndPlay s p ep) ∧
    apInv (AudioPlayer.togglePlayPause s) ∧ apInv (AudioPlayer.stop s) := by
  obtain ⟨st, ce, cf⟩ := s
  refine ⟨?_, ?_, ?_, ?_⟩ <;>
    cases st <;>
    simp_all [apInv, apInit, AudioPlayer.loadAndPlay, AudioPlayer.togglePlayPause,
      AudioPlayer.stop]

/-- Witness for `audio_player_episode_invariant` at the initial
state. -/
theorem audio_player_episode_invariant_inst :
    apInv apInit ∧ apInv (AudioPlayer.loadAndPlay apInit file0 ep0) ∧
    apInv (AudioPlayer.togglePlayPause apInit) ∧ apInv (AudioPlayer.stop apInit) :=
  audio_player_episode_invariant apInit file0 ep0 (by unfold apInv; decide)

/-! ### C7 — end-of-track tick -/

/-- C7 counterexample: a tick while Playing with a not-busy mixer does
flip `is_playing` (so the state becomes Stopped), but `current_episode`
and `audio_file` are left set, contradicting the claim that both are
cleared on that very tick. -/
theorem tick_leaves_episode_cex :
    sPlay.is_playing = true ∧ sPlay.is_paused = false ∧
    (PodcastPlayer.tick sPlay false).is_playing = false ∧
    (PodcastPlayer.tick sPlay false).current_episode = some entryEnc ∧
    (PodcastPlayer.tick sPlay false).audio_file = some file0 := by decide

/-- C7 (amended): if the tick runs while Playing (`is_playing` set,
`is_paused` clear) and the mixer reports not busy, the only assignment
is `is_playing = False`: the state becomes Stopped but
`current_episode` and `audio_file` keep their values. -/
theorem tick_stops_without_clearing (s : PPState) (h1 : s.is_playing = true)
    (h2 : s.is_paused = false) :
    PodcastPlayer.tick s false = { s with is_playing := false } ∧
    (PodcastPlayer.tick s false).current_episode = s.current_episode ∧
    (PodcastPlayer.tick s false).audio_file = s.audio_file := by
  have hc : (s.is_playing && !false && !s.is_paused) = true := by
    rw [h1, h2]; rfl
  unfold PodcastPlayer.tick
  rw [if_pos hc]
  exact ⟨rfl, rfl, rfl⟩

/-- Witness for `tick_stops_without_clearing` at the playing state. -/
theorem tick_stops_without_clearing_inst :
    PodcastPlayer.tick sPlay false = { sPlay with is_playing := false } ∧
    (PodcastPlayer.tick sPlay false).current_episode = sPlay.current_episode ∧
    (PodcastPlayer.tick sPlay false).audio_file = sPlay.audio_file :=
  tick_stops_without_clearing sPlay rfl rfl

/-! ### C8 — stop -/

/-- C8 counterexample: `PodcastPlayer.stop_playback` from a playing
state clears the flags and `current_episode` but leaves `audio_file`
(the player's current-file field) set, contradicting the claim that
stop leaves both current_episode and current_file null. -/
theorem stop_keeps_audio_file_cex :
    (PodcastPlayer.stopPlayback sPlay).is_playing = false ∧
    (PodcastPlayer.stopPlayback sPlay).current_episode = none ∧
    (PodcastPlayer.stopPlayback sPlay).audio_file = some file0 ∧
    (some file0 : Option String) ≠ none := by decide

/-- C8 (amended): `AudioPlayer.stop` leaves the player Stopped with
`current_episode` and `current_file` both null, from any prior state,
and is idempotent; `PodcastPlayer.stop_playback` clears both flags and
`current_episode` and is idempotent, but leaves `audio_file`
unchanged. -/
theorem stop_state_behavior (a : APState) (s : PPState) :
    AudioPlayer.stop a =
      { state := PlayerState.stopped, current_episode := none, current_file := none } ∧
    AudioPlayer.stop (AudioPlayer.stop a) = AudioPlayer.stop a ∧
    (PodcastPlayer.stopPlayback s).is_playing = false ∧
    (PodcastPlayer.stopPlayback s).is_paused = false ∧
    (PodcastPlayer.stopPlayback s).current_episode = none ∧
    (PodcastPlayer.stopPlayback s).audio_file = s.audio_file ∧
    PodcastPlayer.stopPlayback (PodcastPlayer.stopPlayback s) =
      PodcastPlayer.stopPlayback s :=
  ⟨rfl, rfl, rfl, rfl, rfl, rfl, rfl⟩

/-! ### C9 — failed refresh keeps the old list -/

/-- C9: if the feed parse raises during a refresh, the exception
handler only prints a message: the episode list, the cached podcast
title — indeed the whole player state — are exactly as before the
call.  Both assignments sit after the fallible parse inside the `try`
block, so no partial update can be observed. -/
theorem fetch_failure_keeps_state (s : PPState) (msg : String) :
    (PodcastPlayer.fetchEpisodes s (Except.error msg)).episodes = s.episodes ∧
    (PodcastPlayer.fetchEpisodes s (Except.error msg)).podcast_title = s.podcast_title ∧
    PodcastPlayer.fetchEpisodes s (Except.error msg) = s :=
  ⟨rfl, rfl, rfl⟩

/-! ### C10 — out-of-range play request -/

/-- C10: `play_episode` with an index at least the episode count
returns before touching any field and before spawning a download
thread; and the guard checks only the upper bound — a negative index is
never rejected by it (the cast episode count is non-negative, so
`len <= idx` fails for every negative `idx`). -/
theorem play_out_of_range_noop (s : PPState) (idx : Int) :
    ((s.episodes.length : Int) ≤ idx →
      PodcastPlayer.playEpisode s idx = some (s, none)) ∧
    (idx < 0 → ¬ ((s.episodes.length : Int) ≤ idx)) := by
  constructor
  · intro h
    unfold PodcastPlayer.playEpisode
    rw [if_pos h]
  · intro hneg hle
    omega

/-- Witness for `play_out_of_range_noop`: requesting episode 3 of an
empty list changes nothing and starts no download. -/
theorem play_out_of_range_noop_inst :
    PodcastPlayer.playEpisode ppInit 3 = some (ppInit, none) :=
  (play_out_of_range_noop ppInit 3).1 (by decide)
